import Mathlib

/-!
# Verification of the publish.li publishing handlers

A shallow embedding of `src/cmd/publish/handlers.go` (the `apiPut` create
handler, the `apiPost` update handler) and of the social-handle validators,
together with proofs of the specified properties.

External collaborators of the handlers — the slug library
(`slugify.Slugify`), the URL parser (`url.ParseRequestURI` followed by
`u.String()`), the Markdown renderer (`blackfriday.MarkdownCommon`), the
random-token generator (`randStr`) and the clock (`time.Now`) — are taken
as parameters, as the spec directs ("treated as a pure predicate supplied
to the core", "treated as an opaque input generator").

Strings are modelled with Lean's `String`/`List Char`; Go's
`strings.ToLower` is modelled per-character with `Char.toLower` (faithful
on ASCII, which is all the alphabets below contain).
-/

/-! ## Handle validators (handles file of package main) -/

/-- Go: `var chars = "abcdefghijklmnopqrstuvwxyz"` -/
def chars : String := "abcdefghijklmnopqrstuvwxyz"

/-- Go: `var twitterChars = chars + "_"` -/
def twitterChars : String := chars ++ "_"

/-- Go: `var facebookChars = chars + "."` -/
def facebookChars : String := chars ++ "."

/-- Go: `var githubChars = chars + "-"` -/
def githubChars : String := chars ++ "-"

/-- Go: `var instagramChars = chars` -/
def instagramChars : String := chars

/-- Go's `strings.Trim(s, cutset)` on rune lists: remove from both ends
every leading and trailing rune contained in `cutset`. -/
def goTrimList (cutset : List Char) (s : List Char) : List Char :=
  ((s.dropWhile (fun c => decide (c ∈ cutset))).reverse.dropWhile
      (fun c => decide (c ∈ cutset))).reverse

/-- Go's `strings.Trim` on `String`. -/
def goTrim (s cutset : String) : String :=
  String.mk (goTrimList cutset.toList s.toList)

/-- Go's `strings.ToLower`, per character (ASCII-faithful). -/
def goToLower (s : String) : String := String.mk (s.toList.map Char.toLower)

/-- Go: `strings.Trim(strings.ToLower(handle), twitterChars) == ""`. -/
def isValidTwitterHandle (handle : String) : Bool :=
  goTrim (goToLower handle) twitterChars == ""

/-- Go: `strings.Trim(strings.ToLower(handle), facebookChars) == ""`. -/
def isValidFacebookHandle (handle : String) : Bool :=
  goTrim (goToLower handle) facebookChars == ""

/-- Go: `strings.Trim(strings.ToLower(handle), githubChars) == ""`. -/
def isValidGitHubHandle (handle : String) : Bool :=
  goTrim (goToLower handle) githubChars == ""

/-- Go: `strings.Trim(strings.ToLower(handle), instagramChars) == ""`. -/
def isValidInstagramHandle (handle : String) : Bool :=
  goTrim (goToLower handle) instagramChars == ""

/-- Trimming a cutset from both ends yields the empty list exactly when
every character of the list lies in the cutset. -/
lemma goTrimList_eq_nil_iff (cutset s : List Char) :
    goTrimList cutset s = [] ↔ ∀ c ∈ s, c ∈ cutset := by
  unfold goTrimList
  rw [List.reverse_eq_nil_iff, List.dropWhile_eq_nil_iff]
  constructor
  · intro h c hc
    have hc' : c ∈ s.takeWhile (fun c => decide (c ∈ cutset)) ++
        s.dropWhile (fun c => decide (c ∈ cutset)) := by
      rw [List.takeWhile_append_dropWhile]; exact hc
    rcases List.mem_append.mp hc' with h1 | h2
    · exact of_decide_eq_true
        (@List.mem_takeWhile_imp _ (fun c => decide (c ∈ cutset)) s c h1)
    · exact of_decide_eq_true (h c (List.mem_reverse.mpr h2))
  · intro h c hc
    exact decide_eq_true
      (h c ((List.dropWhile_sublist _).subset (List.mem_reverse.mp hc)))

/-- A validator of the `goTrim`-based shape accepts a handle exactly when
every character of the lower-cased handle lies in its cutset string. -/
lemma goTrim_validator_iff (cutset handle : String) :
    (goTrim (goToLower handle) cutset == "") = true ↔
      ∀ c ∈ (goToLower handle).toList, c ∈ cutset.toList := by
  rw [beq_iff_eq, goTrim, String.ext_iff]
  exact goTrimList_eq_nil_iff _ _

/-! ## Data model

The `Page` struct and the storage functions (`storePutPage`,
`storeGetPage`) live in files of this repository that are not under
`src/`; they are modelled from the spec (§3, §4.2). -/

/-- Modelled from the spec: the Page record of §3, with the field names the
handlers in `src/` use (`Id`, `Name`, `Title`, `Author`, `Website`,
`Content`, `Twitter`, `Facebook`, `GitHub`, `Instagram`, `Inserted`,
`Updated`, `Html`); the Go struct definition itself is not under `src/`.
Timestamps are modelled as `Nat`, rendered markup as `String`. -/
structure Page where
  Id : String
  Name : String
  Title : String
  Author : String
  Website : String
  Content : String
  Twitter : String
  Facebook : String
  GitHub : String
  Instagram : String
  Inserted : Nat
  Updated : Nat
  Html : String
deriving Repr, DecidableEq

/-- Modelled from the spec: the two logical buckets of §4.2 — `byName`
maps a page name to the serialized Page, `byId` maps an id to a name.
Modelled as association lists where the most recent write comes first. -/
structure Store where
  byName : List (String × Page)
  byId : List (String × String)
deriving Repr, DecidableEq

/-- Modelled from the spec: `GetByName` (§4.2) — reads the by-name bucket;
`none` (not-found, not an error) when the key is absent. The Go function
`storeGetPage` is not under `src/`. -/
def storeGetPage (st : Store) (name : String) : Option Page :=
  (st.byName.find? (fun kv => kv.1 == name)).map (fun kv => kv.2)

/-- Modelled from the spec: `Put` (§4.2) — within one atomic transaction,
overwrites the by-name entry for `page.Name` with the record and the by-id
entry mapping `page.Id` to `page.Name`. The Go function `storePutPage` is
not under `src/`. -/
def storePutPage (st : Store) (page : Page) : Store :=
  { byName := (page.Name, page) :: st.byName.filter (fun kv => kv.1 != page.Name),
    byId := (page.Id, page.Name) :: st.byId.filter (fun kv => kv.1 != page.Id) }

/-- The form values read by `apiPut` (create). -/
structure PutRequest where
  title : String
  content : String
  author : String
  website : String
  twitter : String
  github : String
  facebook : String
  instagram : String
deriving Repr, DecidableEq

/-- The form values read by `apiPost` (update): those of `apiPut` plus
`id` and `name`. -/
structure PostRequest where
  id : String
  name : String
  title : String
  content : String
  author : String
  website : String
  twitter : String
  github : String
  facebook : String
  instagram : String
deriving Repr, DecidableEq

/-- What a handler sends back: `sendError msg`, or the success JSON
`{ok: true, msg: "Saved", payload: {...}}` whose payload is a string map,
kept as an association list in write order. -/
inductive ApiResult where
  | error (msg : String)
  | success (payload : List (String × String))
deriving Repr, DecidableEq

/-- The `Page` literal built by `apiPut` (handlers.go lines 110-128):
fresh id and name, both timestamps `now`, `Html` rendered from the
content. `slug` is `slugify.Slugify(title)` and `website` the (possibly
normalized) website value at that point. -/
def putPage (markdown : String → String) (rid rsuffix : String) (now : Nat)
    (req : PutRequest) (slug website : String) : Page :=
  { Id := rid
    Name := slug ++ "-" ++ rsuffix
    Title := req.title
    Author := req.author
    Website := website
    Content := req.content
    Twitter := req.twitter
    Facebook := req.facebook
    GitHub := req.github
    Instagram := req.instagram
    Inserted := now
    Updated := now
    Html := markdown req.content }

/-- The mutation `apiPost` applies to the loaded page (handlers.go lines
229-242): all content and profile fields replaced from the request,
`Updated` stamped, `Html` re-rendered; `Id`, `Name`, `Inserted` untouched. -/
def postPage (markdown : String → String) (now : Nat) (req : PostRequest)
    (existPage : Page) (website : String) : Page :=
  { existPage with
    Title := req.title
    Content := req.content
    Author := req.author
    Website := website
    Twitter := req.twitter
    Facebook := req.facebook
    GitHub := req.github
    Instagram := req.instagram
    Updated := now
    Html := markdown req.content }

/-- The website validation shared by both handlers: an empty website is
kept as is; a non-empty one goes through `url.ParseRequestURI` and is
replaced by `u.String()` on success (`parseRequestURI` models the
composite, `none` meaning a parse error). -/
def websiteCheck (parseRequestURI : String → Option String)
    (website : String) : Option String :=
  if website = "" then some website else parseRequestURI website

/-- `apiPut` (handlers.go lines 57-152), the create handler, as a function
of its external collaborators: `slugify` the slug library, `parseRequestURI`
the URL parser-normalizer, `markdown` the renderer
(`blackfriday.MarkdownCommon`), `rid`/`rsuffix` the two fresh tokens
`randStr(16)` and `randStr(8)`, and `now` the clock reading. Returns what
is sent plus the store after the call. -/
def apiPut (slugify : String → String) (parseRequestURI : String → Option String)
    (markdown : String → String) (rid rsuffix : String) (now : Nat)
    (req : PutRequest) (st : Store) : ApiResult × Store :=
  let slug := slugify req.title
  if slug = "" then (ApiResult.error "Provide a title", st)
  else
    match websiteCheck parseRequestURI req.website with
    | none => (ApiResult.error "Invalid website URL", st)
    | some website =>
      if req.twitter ≠ "" ∧ isValidTwitterHandle req.twitter = false then
        (ApiResult.error "Invalid Twitter Handle. Only letters, numbers, and underscore allowed.", st)
      else if req.github ≠ "" ∧ isValidGitHubHandle req.github = false then
        (ApiResult.error "Invalid GitHub Handle. Only letters, numbers, and dash allowed.", st)
      else if req.facebook ≠ "" ∧ isValidFacebookHandle req.facebook = false then
        (ApiResult.error "Invalid Facebook Handle. Only letters, numbers, and dot allowed.", st)
      else if req.instagram ≠ "" ∧ isValidInstagramHandle req.instagram = false then
        (ApiResult.error "Invalid Instagram Handle. Only letters and numbers allowed.", st)
      else
        let page := putPage markdown rid rsuffix now req slug website
        (ApiResult.success [("id", page.Id), ("name", page.Name)],
          storePutPage st page)

/-- `apiPost` (handlers.go lines 154-266), the update handler. The storage
read is modelled total (the `errGet` internal-error branch of the Go code
corresponds to a storage fault, out of the modelled state). -/
def apiPost (slugify : String → String) (parseRequestURI : String → Option String)
    (markdown : String → String) (now : Nat)
    (req : PostRequest) (st : Store) : ApiResult × Store :=
  match storeGetPage st req.name with
  | none => (ApiResult.error "This page name does not exist.", st)
  | some existPage =>
    if existPage.Id ≠ req.id then (ApiResult.error "Permission denied.", st)
    else
      let slug := slugify req.title
      if slug = "" then (ApiResult.error "Provide a title", st)
      else
        match websiteCheck parseRequestURI req.website with
        | none => (ApiResult.error "Invalid website URL", st)
        | some website =>
          if req.twitter ≠ "" ∧ isValidTwitterHandle req.twitter = false then
            (ApiResult.error "Invalid Twitter Handle. Only letters, numbers, and underscore allowed.", st)
          else if req.github ≠ "" ∧ isValidGitHubHandle req.github = false then
            (ApiResult.error "Invalid GitHub Handle. Only letters, numbers, and dash allowed.", st)
          else if req.facebook ≠ "" ∧ isValidFacebookHandle req.facebook = false then
            (ApiResult.error "Invalid Facebook Handle. Only letters, numbers, and dot allowed.", st)
          else if req.instagram ≠ "" ∧ isValidInstagramHandle req.instagram = false then
            (ApiResult.error "Invalid Instagram Handle. Only letters and numbers allowed.", st)
          else
            let page := postPage markdown now req existPage website
            (ApiResult.success [("id", page.Id), ("name", page.Name)],
              storePutPage st page)

/-- Reading back the name just written returns the written page. -/
lemma storeGetPage_storePutPage_same (st : Store) (page : Page) :
    storeGetPage (storePutPage st page) page.Name = some page := by
  simp [storeGetPage, storePutPage, List.find?]

lemma apiPut_success_inv (slugify : String → String)
    (pr : String → Option String) (md : String → String)
    (rid rsuffix : String) (now : Nat) (req : PutRequest) (st : Store)
    (pl : List (String × String)) (st' : Store)
    (h : apiPut slugify pr md rid rsuffix now req st = (ApiResult.success pl, st')) :
    ∃ website, websiteCheck pr req.website = some website ∧
      slugify req.title ≠ "" ∧
      pl = [("id", rid), ("name", slugify req.title ++ "-" ++ rsuffix)] ∧
      st' = storePutPage st
        (putPage md rid rsuffix now req (slugify req.title) website) := by
  unfold apiPut at h
  dsimp only at h
  split at h
  · simp at h
  · next hslug =>
    split at h
    · simp at h
    · next website hw =>
      split at h
      · simp at h
      · split at h
        · simp at h
        · split at h
          · simp at h
          · split at h
            · simp at h
            · rw [Prod.mk.injEq] at h
              obtain ⟨h1, h2⟩ := h
              injection h1 with h1
              exact ⟨website, hw, hslug, h1.symm, h2.symm⟩

lemma apiPost_success_inv (slugify : String → String)
    (pr : String → Option String) (md : String → String)
    (now : Nat) (req : PostRequest) (st : Store) (p : Page)
    (pl : List (String × String)) (st' : Store)
    (hget : storeGetPage st req.name = some p)
    (h : apiPost slugify pr md now req st = (ApiResult.success pl, st')) :
    ∃ website, websiteCheck pr req.website = some website ∧
      p.Id = req.id ∧ slugify req.title ≠ "" ∧
      pl = [("id", p.Id), ("name", p.Name)] ∧
      st' = storePutPage st (postPage md now req p website) := by
  unfold apiPost at h
  rw [hget] at h
  dsimp only at h
  split at h
  · simp at h
  · next hid =>
    rw [not_not] at hid
    split at h
    · simp at h
    · next hslug =>
      split at h
      · simp at h
      · next website hw =>
        split at h
        · simp at h
        · split at h
          · simp at h
          · split at h
            · simp at h
            · split at h
              · simp at h
              · rw [Prod.mk.injEq] at h
                obtain ⟨h1, h2⟩ := h
                injection h1 with h1
                exact ⟨website, hw, hid, hslug, h1.symm, h2.symm⟩

/-! ## Concrete instances of the external collaborators and fixtures,
used to instantiate the universally quantified theorems below. -/

/-- A concrete slug-library instance: lower-case the title. -/
def slugC (s : String) : String := goToLower s

/-- A URL parser instance that rejects every input. -/
def parseNone : String → Option String := fun _ => none

/-- A URL parser instance that accepts every input unchanged. -/
def parseId : String → Option String := fun s => some s

/-- A URL parser instance that accepts and normalizes by appending a
slash, exhibiting a normalization that differs from its input. -/
def parseSlash : String → Option String := fun s => some (s ++ "/")

/-- A concrete Markdown renderer instance. -/
def mdC (s : String) : String := "<p>" ++ s ++ "</p>"

/-- A stored page fixture. -/
def pageC : Page :=
  { Id := "secret-id-16", Name := "hello-abc", Title := "hello",
    Author := "ann", Website := "", Content := "old content", Twitter := "",
    Facebook := "", GitHub := "", Instagram := "", Inserted := 5,
    Updated := 5, Html := "<p>old</p>" }

/-- The empty store. -/
def stEmpty : Store := { byName := [], byId := [] }

/-- A store holding exactly `pageC`. -/
def stC : Store :=
  { byName := [("hello-abc", pageC)], byId := [("secret-id-16", "hello-abc")] }

/-- A create request that passes every validation. -/
def reqPutOk : PutRequest :=
  { title := "hello", content := "new content", author := "bob",
    website := "", twitter := "", github := "", facebook := "",
    instagram := "" }

/-- A create request whose title slugifies to empty. -/
def reqPutEmptyTitle : PutRequest := { reqPutOk with title := "" }

/-- A create request with a non-empty website. -/
def reqPutSite : PutRequest := { reqPutOk with website := "example.com" }

/-- An update request for `pageC` with the correct id. -/
def reqPostOk : PostRequest :=
  { id := "secret-id-16", name := "hello-abc", title := "updated",
    content := "new content", author := "bob", website := "", twitter := "",
    github := "", facebook := "", instagram := "" }

/-- An update request for `pageC` with a wrong id. -/
def reqPostWrongId : PostRequest := { reqPostOk with id := "wrong-id" }

/-- An update request with a wrong id and an empty-slug title. -/
def reqPostWrongIdEmptyTitle : PostRequest :=
  { reqPostOk with id := "wrong-id", title := "" }

/-- An update request with the correct id and an empty-slug title. -/
def reqPostEmptyTitle : PostRequest := { reqPostOk with title := "" }

/-- An update request naming a page that is not stored. -/
def reqPostMissing : PostRequest := { reqPostOk with name := "no-such-page" }

/-- An update request for `pageC` with a non-empty website. -/
def reqPostSite : PostRequest := { reqPostOk with website := "example.com" }

/-! ## The claims -/

/-- C1 (evaluation at the failing inputs): the spec's worked examples do
hold — "john_doe" is a valid twitter handle, "john doe" is not, "my-repo"
is a valid github handle, "my.repo" is not — but, contrary to the claimed
alphabets `[a-z0-9_]`/`[a-z0-9-]`/`[a-z0-9.]`/`[a-z0-9]` and to the
handlers' own error messages ("Only letters, numbers, and ... allowed."),
the validators reject every digit: the cutset constants are built from the
letters-only `chars`, so a handle containing a digit always fails. -/
theorem handle_validator_digit_rejection :
    isValidTwitterHandle "john_doe" = true ∧
    isValidTwitterHandle "john doe" = false ∧
    isValidGitHubHandle "my-repo" = true ∧
    isValidGitHubHandle "my.repo" = false ∧
    isValidTwitterHandle "john1doe" = false ∧
    isValidGitHubHandle "repo1" = false ∧
    isValidFacebookHandle "page1" = false ∧
    isValidInstagramHandle "insta1" = false := by decide

/-- C10: any handle the instagram validator accepts is also accepted by
the twitter, github and facebook validators: the instagram cutset
(`chars`) is contained in each of the other three cutsets. -/
theorem instagram_handle_implies_other_handles (h : String)
    (hv : isValidInstagramHandle h = true) :
    isValidTwitterHandle h = true ∧ isValidGitHubHandle h = true ∧
      isValidFacebookHandle h = true := by
  have hall := (goTrim_validator_iff instagramChars h).mp hv
  have h1 : ∀ c ∈ instagramChars.toList, c ∈ twitterChars.toList := by decide
  have h2 : ∀ c ∈ instagramChars.toList, c ∈ githubChars.toList := by decide
  have h3 : ∀ c ∈ instagramChars.toList, c ∈ facebookChars.toList := by decide
  exact ⟨(goTrim_validator_iff twitterChars h).mpr (fun c hc => h1 c (hall c hc)),
    (goTrim_validator_iff githubChars h).mpr (fun c hc => h2 c (hall c hc)),
    (goTrim_validator_iff facebookChars h).mpr (fun c hc => h3 c (hall c hc))⟩

/-- C10 witness: the theorem applied to the concrete handle "selena". -/
theorem instagram_handle_implies_other_handles_witness :
    isValidInstagramHandle "selena" = true ∧
      (isValidTwitterHandle "selena" = true ∧
        isValidGitHubHandle "selena" = true ∧
        isValidFacebookHandle "selena" = true) :=
  ⟨by decide, instagram_handle_implies_other_handles "selena" (by decide)⟩

/-- C2: an update whose id differs from the stored id for the (existing)
name fails with "Permission denied." and performs no storage write — the
store, and in particular the stored record for the name, is unchanged. -/
theorem update_wrong_id_permission_denied (slugify : String → String)
    (pr : String → Option String) (md : String → String) (now : Nat)
    (req : PostRequest) (st : Store) (p : Page)
    (hget : storeGetPage st req.name = some p) (hid : p.Id ≠ req.id) :
    apiPost slugify pr md now req st =
        (ApiResult.error "Permission denied.", st) ∧
      storeGetPage (apiPost slugify pr md now req st).2 req.name = some p := by
  have h : apiPost slugify pr md now req st =
      (ApiResult.error "Permission denied.", st) := by
    unfold apiPost
    rw [hget]
    dsimp only
    rw [if_pos hid]
  exact ⟨h, by rw [h]; exact hget⟩

/-- C2 witness: the theorem applied to the stored `pageC` and an update
request carrying the wrong id. -/
theorem update_wrong_id_permission_denied_witness :
    storeGetPage stC reqPostWrongId.name = some pageC ∧
      pageC.Id ≠ reqPostWrongId.id ∧
      (apiPost slugC parseId mdC 9 reqPostWrongId stC =
          (ApiResult.error "Permission denied.", stC) ∧
        storeGetPage (apiPost slugC parseId mdC 9 reqPostWrongId stC).2
            reqPostWrongId.name = some pageC) :=
  ⟨by decide, by decide,
    update_wrong_id_permission_denied slugC parseId mdC 9 reqPostWrongId stC
      pageC (by decide) (by decide)⟩

/-- C3: a successful update stores, under the supplied name, a page with
the same id, name and creation timestamp as the previously stored page,
`Updated` stamped to now, and title, content, author, the profile fields
and the rendered markup taken from the request. -/
theorem update_success_frame (slugify : String → String)
    (pr : String → Option String) (md : String → String) (now : Nat)
    (req : PostRequest) (st st' : Store) (p : Page)
    (pl : List (String × String))
    (hget : storeGetPage st req.name = some p) (hname : p.Name = req.name)
    (h : apiPost slugify pr md now req st = (ApiResult.success pl, st')) :
    ∃ p', storeGetPage st' req.name = some p' ∧
      p'.Id = p.Id ∧ p'.Name = p.Name ∧ p'.Inserted = p.Inserted ∧
      p'.Updated = now ∧ p'.Title = req.title ∧ p'.Content = req.content ∧
      p'.Author = req.author ∧ p'.Twitter = req.twitter ∧
      p'.Facebook = req.facebook ∧ p'.GitHub = req.github ∧
      p'.Instagram = req.instagram ∧ p'.Html = md req.content := by
  obtain ⟨website, hw, hid, hslug, hpl, hst⟩ :=
    apiPost_success_inv slugify pr md now req st p pl st' hget h
  refine ⟨postPage md now req p website, ?_, rfl, rfl, rfl, rfl, rfl, rfl,
    rfl, rfl, rfl, rfl, rfl, rfl⟩
  rw [hst, ← hname]
  exact storeGetPage_storePutPage_same st (postPage md now req p website)

/-- C3 witness: the theorem applied to a concrete successful update of
`pageC`. -/
theorem update_success_frame_witness :
    ∃ p', storeGetPage
        (storePutPage stC (postPage mdC 9 reqPostOk pageC "")) "hello-abc" =
          some p' ∧
      p'.Id = pageC.Id ∧ p'.Name = pageC.Name ∧ p'.Inserted = pageC.Inserted ∧
      p'.Updated = 9 ∧ p'.Title = reqPostOk.title ∧
      p'.Content = reqPostOk.content ∧ p'.Author = reqPostOk.author ∧
      p'.Twitter = reqPostOk.twitter ∧ p'.Facebook = reqPostOk.facebook ∧
      p'.GitHub = reqPostOk.github ∧ p'.Instagram = reqPostOk.instagram ∧
      p'.Html = mdC reqPostOk.content :=
  update_success_frame slugC parseId mdC 9 reqPostOk stC
    (storePutPage stC (postPage mdC 9 reqPostOk pageC ""))
    pageC [("id", "secret-id-16"), ("name", "hello-abc")]
    (by decide) (by decide) (by decide)

/-- C4: a title that slugifies to empty fails create with "Provide a
title" and no storage write, and likewise fails update (past its
not-found and permission checks, which the code runs first — see the
check-order theorem) with the same error and no storage write. -/
theorem empty_slug_provide_title (slugify : String → String)
    (pr : String → Option String) (md : String → String)
    (rid rsuffix : String) (now : Nat) (reqP : PutRequest)
    (reqQ : PostRequest) (stP stQ : Store) :
    (slugify reqP.title = "" →
      apiPut slugify pr md rid rsuffix now reqP stP =
        (ApiResult.error "Provide a title", stP)) ∧
    (∀ p, storeGetPage stQ reqQ.name = some p → p.Id = reqQ.id →
      slugify reqQ.title = "" →
      apiPost slugify pr md now reqQ stQ =
        (ApiResult.error "Provide a title", stQ)) := by
  constructor
  · intro hs
    unfold apiPut
    dsimp only
    rw [if_pos hs]
  · intro p hget hid hs
    unfold apiPost
    rw [hget]
    dsimp only
    rw [if_neg (not_not_intro hid), if_pos hs]

/-- C4 witness: the theorem applied to an empty title for both create
(on the empty store) and update (of the stored `pageC`). -/
theorem empty_slug_provide_title_witness :
    slugC reqPutEmptyTitle.title = "" ∧
      apiPut slugC parseId mdC "id16" "sfx8" 9 reqPutEmptyTitle stEmpty =
        (ApiResult.error "Provide a title", stEmpty) ∧
      apiPost slugC parseId mdC 9 reqPostEmptyTitle stC =
        (ApiResult.error "Provide a title", stC) :=
  ⟨by decide,
    (empty_slug_provide_title slugC parseId mdC "id16" "sfx8" 9
        reqPutEmptyTitle reqPostEmptyTitle stEmpty stC).1 (by decide),
    (empty_slug_provide_title slugC parseId mdC "id16" "sfx8" 9
        reqPutEmptyTitle reqPostEmptyTitle stEmpty stC).2 pageC (by decide)
      (by decide) (by decide)⟩

/-- C5: update failure detection order — not-found is checked first, the
permission check second, and the field validations only after both: with
a wrong id and a title that slugifies to empty the result is the
permission error, never the title-validation error. -/
theorem update_check_order (slugify : String → String)
    (pr : String → Option String) (md : String → String) (now : Nat)
    (req : PostRequest) (st1 st2 : Store) :
    (storeGetPage st1 req.name = none →
      apiPost slugify pr md now req st1 =
        (ApiResult.error "This page name does not exist.", st1)) ∧
    (∀ p, storeGetPage st2 req.name = some p → p.Id ≠ req.id →
      slugify req.title = "" →
      apiPost slugify pr md now req st2 =
          (ApiResult.error "Permission denied.", st2) ∧
        (apiPost slugify pr md now req st2).1 ≠
          ApiResult.error "Provide a title") := by
  constructor
  · intro hn
    unfold apiPost
    rw [hn]
  · intro p hget hid _
    have h : apiPost slugify pr md now req st2 =
        (ApiResult.error "Permission denied.", st2) := by
      unfold apiPost
      rw [hget]
      dsimp only
      rw [if_pos hid]
    refine ⟨h, ?_⟩
    rw [h]
    intro hcontra
    simp at hcontra

/-- C5 witness: the same request (wrong id, empty-slug title) yields
not-found on the empty store and permission-denied, not the title error,
on the store holding the page. -/
theorem update_check_order_witness :
    apiPost slugC parseId mdC 9 reqPostWrongIdEmptyTitle stEmpty =
        (ApiResult.error "This page name does not exist.", stEmpty) ∧
      apiPost slugC parseId mdC 9 reqPostWrongIdEmptyTitle stC =
        (ApiResult.error "Permission denied.", stC) ∧
      (apiPost slugC parseId mdC 9 reqPostWrongIdEmptyTitle stC).1 ≠
        ApiResult.error "Provide a title" :=
  ⟨(update_check_order slugC parseId mdC 9 reqPostWrongIdEmptyTitle stEmpty
      stC).1 (by decide),
    ((update_check_order slugC parseId mdC 9 reqPostWrongIdEmptyTitle stEmpty
        stC).2 pageC (by decide) (by decide) (by decide)).1,
    ((update_check_order slugC parseId mdC 9 reqPostWrongIdEmptyTitle stEmpty
        stC).2 pageC (by decide) (by decide) (by decide)).2⟩

/-- C6: after every successful create or update, the page written to the
store (and re-readable under its name) has its rendered markup equal to
the Markdown rendering of its own content, which is the content of that
very request — never a stale value. -/
theorem rendered_markup_recomputed (slugify : String → String)
    (pr : String → Option String) (md : String → String)
    (rid rsuffix : String) (now : Nat) (reqP : PutRequest)
    (reqQ : PostRequest) (stP stQ : Store) :
    (∀ pl st', apiPut slugify pr md rid rsuffix now reqP stP =
        (ApiResult.success pl, st') →
      ∃ q, st' = storePutPage stP q ∧ storeGetPage st' q.Name = some q ∧
        q.Html = md q.Content ∧ q.Content = reqP.content) ∧
    (∀ p pl st', storeGetPage stQ reqQ.name = some p →
      apiPost slugify pr md now reqQ stQ = (ApiResult.success pl, st') →
      ∃ q, st' = storePutPage stQ q ∧ storeGetPage st' q.Name = some q ∧
        q.Html = md q.Content ∧ q.Content = reqQ.content) := by
  constructor
  · intro pl st' h
    obtain ⟨website, hw, hslug, hpl, hst⟩ :=
      apiPut_success_inv slugify pr md rid rsuffix now reqP stP pl st' h
    exact ⟨putPage md rid rsuffix now reqP (slugify reqP.title) website, hst,
      by rw [hst]; exact storeGetPage_storePutPage_same _ _, rfl, rfl⟩
  · intro p pl st' hget h
    obtain ⟨website, hw, hid, hslug, hpl, hst⟩ :=
      apiPost_success_inv slugify pr md now reqQ stQ p pl st' hget h
    exact ⟨postPage md now reqQ p website, hst,
      by rw [hst]; exact storeGetPage_storePutPage_same _ _, rfl, rfl⟩

/-- C6 witness: the theorem applied to a concrete successful create and a
concrete successful update. -/
theorem rendered_markup_recomputed_witness :
    (∃ q, storePutPage stEmpty (putPage mdC "id16" "sfx8" 9 reqPutOk "hello" "") =
        storePutPage stEmpty q ∧
      storeGetPage (storePutPage stEmpty
          (putPage mdC "id16" "sfx8" 9 reqPutOk "hello" "")) q.Name = some q ∧
      q.Html = mdC q.Content ∧ q.Content = reqPutOk.content) ∧
    (∃ q, storePutPage stC (postPage mdC 9 reqPostOk pageC "") =
        storePutPage stC q ∧
      storeGetPage (storePutPage stC (postPage mdC 9 reqPostOk pageC ""))
          q.Name = some q ∧
      q.Html = mdC q.Content ∧ q.Content = reqPostOk.content) :=
  ⟨(rendered_markup_recomputed slugC parseId mdC "id16" "sfx8" 9 reqPutOk
      reqPostOk stEmpty stC).1
      [("id", "id16"), ("name", "hello-sfx8")]
      (storePutPage stEmpty (putPage mdC "id16" "sfx8" 9 reqPutOk "hello" ""))
      (by decide),
    (rendered_markup_recomputed slugC parseId mdC "id16" "sfx8" 9 reqPutOk
      reqPostOk stEmpty stC).2 pageC
      [("id", "secret-id-16"), ("name", "hello-abc")]
      (storePutPage stC (postPage mdC 9 reqPostOk pageC ""))
      (by decide) (by decide)⟩

/-- C7: website validation on create and update — once the request reaches
the website check (title valid; for update, page found and id correct), a
non-empty website that fails to parse yields "Invalid website URL" and no
write; on a successful request a non-empty website is stored in its
normalized form; an empty website never triggers the URL error and is
stored unchanged. -/
theorem website_url_validation (slugify : String → String)
    (pr : String → Option String) (md : String → String)
    (rid rsuffix : String) (now : Nat) (reqP : PutRequest)
    (reqQ : PostRequest) (stP stQ : Store) :
    ((slugify reqP.title ≠ "" → reqP.website ≠ "" → pr reqP.website = none →
      apiPut slugify pr md rid rsuffix now reqP stP =
        (ApiResult.error "Invalid website URL", stP)) ∧
     (∀ n pl st', reqP.website ≠ "" → pr reqP.website = some n →
      apiPut slugify pr md rid rsuffix now reqP stP =
        (ApiResult.success pl, st') →
      ∃ q, st' = storePutPage stP q ∧ q.Website = n) ∧
     (reqP.website = "" →
      (apiPut slugify pr md rid rsuffix now reqP stP).1 ≠
          ApiResult.error "Invalid website URL" ∧
        ∀ pl st', apiPut slugify pr md rid rsuffix now reqP stP =
            (ApiResult.success pl, st') →
          ∃ q, st' = storePutPage stP q ∧ q.Website = reqP.website)) ∧
    ((∀ p, storeGetPage stQ reqQ.name = some p → p.Id = reqQ.id →
      slugify reqQ.title ≠ "" → reqQ.website ≠ "" → pr reqQ.website = none →
      apiPost slugify pr md now reqQ stQ =
        (ApiResult.error "Invalid website URL", stQ)) ∧
     (∀ p n pl st', storeGetPage stQ reqQ.name = some p →
      reqQ.website ≠ "" → pr reqQ.website = some n →
      apiPost slugify pr md now reqQ stQ = (ApiResult.success pl, st') →
      ∃ q, st' = storePutPage stQ q ∧ q.Website = n) ∧
     (∀ p, storeGetPage stQ reqQ.name = some p → reqQ.website = "" →
      (apiPost slugify pr md now reqQ stQ).1 ≠
          ApiResult.error "Invalid website URL" ∧
        ∀ pl st', apiPost slugify pr md now reqQ stQ =
            (ApiResult.success pl, st') →
          ∃ q, st' = storePutPage stQ q ∧ q.Website = reqQ.website)) := by
  refine ⟨⟨?_, ?_, ?_⟩, ⟨?_, ?_, ?_⟩⟩
  · intro hslug hweb hpr
    have hwc : websiteCheck pr reqP.website = none := by
      rw [websiteCheck, if_neg hweb]; exact hpr
    unfold apiPut
    dsimp only
    rw [if_neg hslug, hwc]
  · intro n pl st' hweb hpr h
    obtain ⟨website, hw, hslug, hpl, hst⟩ :=
      apiPut_success_inv slugify pr md rid rsuffix now reqP stP pl st' h
    have hwc : websiteCheck pr reqP.website = some n := by
      rw [websiteCheck, if_neg hweb]; exact hpr
    have hn : website = n := Option.some.inj (hw.symm.trans hwc)
    exact ⟨putPage md rid rsuffix now reqP (slugify reqP.title) website, hst,
      hn⟩
  · intro hweb0
    have hwc : websiteCheck pr reqP.website = some reqP.website := by
      rw [websiteCheck, if_pos hweb0]
    constructor
    · unfold apiPut
      dsimp only
      rw [hwc]
      dsimp only
      split
      · simp
      · split
        · simp
        · split
          · simp
          · split
            · simp
            · split
              · simp
              · simp
    · intro pl st' h
      obtain ⟨website, hw, hslug, hpl, hst⟩ :=
        apiPut_success_inv slugify pr md rid rsuffix now reqP stP pl st' h
      have hn : website = reqP.website := Option.some.inj (hw.symm.trans hwc)
      exact ⟨putPage md rid rsuffix now reqP (slugify reqP.title) website,
        hst, hn⟩
  · intro p hget hid hslug hweb hpr
    have hwc : websiteCheck pr reqQ.website = none := by
      rw [websiteCheck, if_neg hweb]; exact hpr
    unfold apiPost
    rw [hget]
    dsimp only
    rw [if_neg (not_not_intro hid), if_neg hslug, hwc]
  · intro p n pl st' hget hweb hpr h
    obtain ⟨website, hw, hid, hslug, hpl, hst⟩ :=
      apiPost_success_inv slugify pr md now reqQ stQ p pl st' hget h
    have hwc : websiteCheck pr reqQ.website = some n := by
      rw [websiteCheck, if_neg hweb]; exact hpr
    have hn : website = n := Option.some.inj (hw.symm.trans hwc)
    exact ⟨postPage md now reqQ p website, hst, hn⟩
  · intro p hget hweb0
    have hwc : websiteCheck pr reqQ.website = some reqQ.website := by
      rw [websiteCheck, if_pos hweb0]
    constructor
    · unfold apiPost
      rw [hget]
      dsimp only
      split
      · simp
      · rw [hwc]
        dsimp only
        split
        · simp
        · split
          · simp
          · split
            · simp
            · split
              · simp
              · split
                · simp
                · simp
    · intro pl st' h
      obtain ⟨website, hw, hid, hslug, hpl, hst⟩ :=
        apiPost_success_inv slugify pr md now reqQ stQ p pl st' hget h
      have hn : website = reqQ.website := Option.some.inj (hw.symm.trans hwc)
      exact ⟨postPage md now reqQ p website, hst, hn⟩

/-- C7 witness: the theorem applied at concrete requests — a create and an
update whose website fails to parse, ones whose website parses to a
normalized form ("example.com" to "example.com/"), and ones with an empty
website. -/
theorem website_url_validation_witness :
    (apiPut slugC parseNone mdC "id16" "sfx8" 9 reqPutSite stEmpty =
        (ApiResult.error "Invalid website URL", stEmpty)) ∧
    (∃ q, storePutPage stEmpty
        (putPage mdC "id16" "sfx8" 9 reqPutSite "hello" "example.com/") =
          storePutPage stEmpty q ∧ q.Website = "example.com/") ∧
    ((apiPut slugC parseId mdC "id16" "sfx8" 9 reqPutOk stEmpty).1 ≠
        ApiResult.error "Invalid website URL") ∧
    (∃ q, storePutPage stEmpty
        (putPage mdC "id16" "sfx8" 9 reqPutOk "hello" "") =
          storePutPage stEmpty q ∧ q.Website = reqPutOk.website) ∧
    (apiPost slugC parseNone mdC 9 reqPostSite stC =
        (ApiResult.error "Invalid website URL", stC)) ∧
    (∃ q, storePutPage stC (postPage mdC 9 reqPostSite pageC "example.com/") =
        storePutPage stC q ∧ q.Website = "example.com/") ∧
    ((apiPost slugC parseId mdC 9 reqPostOk stC).1 ≠
        ApiResult.error "Invalid website URL") ∧
    (∃ q, storePutPage stC (postPage mdC 9 reqPostOk pageC "") =
        storePutPage stC q ∧ q.Website = reqPostOk.website) :=
  ⟨(website_url_validation slugC parseNone mdC "id16" "sfx8" 9 reqPutSite
      reqPostSite stEmpty stC).1.1 (by decide) (by decide) rfl,
    (website_url_validation slugC parseSlash mdC "id16" "sfx8" 9 reqPutSite
      reqPostSite stEmpty stC).1.2.1 "example.com/"
      [("id", "id16"), ("name", "hello-sfx8")]
      (storePutPage stEmpty
        (putPage mdC "id16" "sfx8" 9 reqPutSite "hello" "example.com/"))
      (by decide) rfl (by decide),
    ((website_url_validation slugC parseId mdC "id16" "sfx8" 9 reqPutOk
      reqPostOk stEmpty stC).1.2.2 (by decide)).1,
    ((website_url_validation slugC parseId mdC "id16" "sfx8" 9 reqPutOk
      reqPostOk stEmpty stC).1.2.2 (by decide)).2
      [("id", "id16"), ("name", "hello-sfx8")]
      (storePutPage stEmpty (putPage mdC "id16" "sfx8" 9 reqPutOk "hello" ""))
      (by decide),
    (website_url_validation slugC parseNone mdC "id16" "sfx8" 9 reqPutSite
      reqPostSite stEmpty stC).2.1 pageC (by decide) (by decide) (by decide)
      (by decide) rfl,
    (website_url_validation slugC parseSlash mdC "id16" "sfx8" 9 reqPutSite
      reqPostSite stEmpty stC).2.2.1 pageC "example.com/"
      [("id", "secret-id-16"), ("name", "hello-abc")]
      (storePutPage stC (postPage mdC 9 reqPostSite pageC "example.com/"))
      (by decide) (by decide) rfl (by decide),
    ((website_url_validation slugC parseId mdC "id16" "sfx8" 9 reqPutOk
      reqPostOk stEmpty stC).2.2.2 pageC (by decide) (by decide)).1,
    ((website_url_validation slugC parseId mdC "id16" "sfx8" 9 reqPutOk
      reqPostOk stEmpty stC).2.2.2 pageC (by decide) (by decide)).2
      [("id", "secret-id-16"), ("name", "hello-abc")]
      (storePutPage stC (postPage mdC 9 reqPostOk pageC ""))
      (by decide)⟩

/-- C8 counterexample: at a concrete valid create request (title "hello",
content "new content", author "bob") the handler answers with a payload
holding only the keys "id" and "name" — not the full Page record of §3,
whose title, content and author fields are absent from the response. -/
theorem create_full_page_counterexample :
    (apiPut slugC parseId mdC "id16" "sfx8" 9 reqPutOk stEmpty).1 =
      ApiResult.success [("id", "id16"), ("name", "hello-sfx8")] ∧
    ∀ kv ∈ [("id", "id16"), ("name", ("hello-sfx8" : String))],
      kv.1 = "id" ∨ kv.1 = "name" := by decide

/-- C8 amended: every successful create answers with exactly the created
page's id and name as the payload (together with ok and the message
"Saved"), not the remaining Page fields. -/
theorem create_returns_id_and_name (slugify : String → String)
    (pr : String → Option String) (md : String → String)
    (rid rsuffix : String) (now : Nat) (req : PutRequest) (st : Store)
    (pl : List (String × String)) (st' : Store)
    (h : apiPut slugify pr md rid rsuffix now req st =
      (ApiResult.success pl, st')) :
    ∃ q, st' = storePutPage st q ∧ pl = [("id", q.Id), ("name", q.Name)] := by
  obtain ⟨website, hw, hslug, hpl, hst⟩ :=
    apiPut_success_inv slugify pr md rid rsuffix now req st pl st' h
  exact ⟨putPage md rid rsuffix now req (slugify req.title) website, hst, hpl⟩

/-- C8 amended witness: the amended theorem applied to a concrete
successful create. -/
theorem create_returns_id_and_name_witness :
    ∃ q, storePutPage stEmpty (putPage mdC "id16" "sfx8" 9 reqPutOk "hello" "") =
        storePutPage stEmpty q ∧
      [("id", ("id16" : String)), ("name", "hello-sfx8")] =
        [("id", q.Id), ("name", q.Name)] :=
  create_returns_id_and_name slugC parseId mdC "id16" "sfx8" 9 reqPutOk
    stEmpty [("id", "id16"), ("name", "hello-sfx8")]
    (storePutPage stEmpty (putPage mdC "id16" "sfx8" 9 reqPutOk "hello" ""))
    (by decide)

/-- C9: the name a successful create returns in its payload is the slug of
the supplied title, the separator "-", and the fresh random suffix, and is
therefore non-empty. -/
theorem create_name_slug_dash_suffix (slugify : String → String)
    (pr : String → Option String) (md : String → String)
    (rid rsuffix : String) (now : Nat) (req : PutRequest) (st : Store)
    (pl : List (String × String)) (st' : Store)
    (h : apiPut slugify pr md rid rsuffix now req st =
      (ApiResult.success pl, st')) :
    pl = [("id", rid), ("name", slugify req.title ++ "-" ++ rsuffix)] ∧
      slugify req.title ++ "-" ++ rsuffix ≠ "" := by
  obtain ⟨website, hw, hslug, hpl, hst⟩ :=
    apiPut_success_inv slugify pr md rid rsuffix now req st pl st' h
  refine ⟨hpl, fun hemp => ?_⟩
  have hl := congrArg String.length hemp
  rw [String.length_append, String.length_append] at hl
  have h1 : ("-" : String).length = 1 := rfl
  have h0 : ("" : String).length = 0 := rfl
  omega

/-- C9 witness: the theorem applied to a concrete successful create. -/
theorem create_name_slug_dash_suffix_witness :
    [("id", ("id16" : String)), ("name", "hello-sfx8")] =
        [("id", "id16"), ("name", slugC reqPutOk.title ++ "-" ++ "sfx8")] ∧
      slugC reqPutOk.title ++ "-" ++ "sfx8" ≠ "" :=
  create_name_slug_dash_suffix slugC parseId mdC "id16" "sfx8" 9 reqPutOk
    stEmpty [("id", "id16"), ("name", "hello-sfx8")]
    (storePutPage stEmpty (putPage mdC "id16" "sfx8" 9 reqPutOk "hello" ""))
    (by decide)
